import Mathlib

/-!
# Verification of the tracking-link service core

A shallow embedding of the visit-tracking pipeline and analytics layer of
the tracking-link repository:

* `src/lib/database.ts` — `DatabaseManager` (link and visitor storage,
  click statistics), `getLocationFromIP`, `parseUserAgent`;
* the `POST /api/track` route handler (visit-tracking pipeline);
* the `POST /api/links` route handler (link creation);
* the `GET /api/analytics` route handler (aggregation).

Modelling conventions:
* SQLite rows become Lean structures; the two tables become lists held in a
  `DB` structure.  Insertion order of the lists mirrors insertion order of
  the rows.
* ISO-8601 timestamp strings (whose lexicographic order agrees with time
  order) are modelled as `Nat` instants.
* JavaScript numbers occurring in the analytics average are modelled with
  `JSNum` (a rational, `NaN`, or a signed infinity); elsewhere coordinates
  are plain rationals.  JavaScript truthiness (`x || y`, `!x`) on optional
  numbers/strings is modelled explicitly: `0`, `""`, `undefined`/`null` are
  falsy.
* The single external effect — the HTTPS geolocation lookup — is modelled
  by a `FetchOutcome` oracle passed in as an argument; functions that may
  perform the lookup additionally return a `Bool` recording whether the
  external call (respectively the resolver) actually ran.
-/

namespace TrackLink

/-- JavaScript truthiness of an optional number: `undefined`/`null` and `0`
are falsy (NaN cannot occur: the zod schema rejects it). -/
def truthyQ (x : Option ℚ) : Bool :=
  match x with
  | none => false
  | some v => decide (v ≠ 0)

/-- JavaScript truthiness of an optional string: `undefined`/`null` and the
empty string are falsy. -/
def truthyS (x : Option String) : Bool :=
  match x with
  | none => false
  | some s => !(s == "")

/-- JavaScript `x || y` on optional numbers. -/
def jsOrQ (x y : Option ℚ) : Option ℚ :=
  if truthyQ x then x else y

/-- JavaScript `x || null` on an optional number (as performed argument by
argument in `recordVisitor`'s `stmt.run`). -/
def nullifyQ (x : Option ℚ) : Option ℚ :=
  if truthyQ x then x else none

/-- JavaScript `x || null` on an optional string. -/
def nullifyS (x : Option String) : Option String :=
  if truthyS x then x else none

/-- `a` is a (character-list) prefix of `b`. -/
def listPrefixOf : List Char → List Char → Bool
  | [], _ => true
  | _ :: _, [] => false
  | a :: as, b :: bs => a == b && listPrefixOf as bs

/-- `pat` occurs as a contiguous substring of `s` (character lists). -/
def listHasSub (pat : List Char) : List Char → Bool
  | [] => pat.isEmpty
  | c :: rest => listPrefixOf pat (c :: rest) || listHasSub pat rest

/-- JavaScript `s.includes(pat)`. -/
def strHasSub (s pat : String) : Bool :=
  listHasSub pat.toList s.toList

/-- JavaScript `s.startsWith(pat)`. -/
def strStartsWith (s pat : String) : Bool :=
  listPrefixOf pat.toList s.toList

/-- JavaScript `s.toLowerCase()` (ASCII case mapping suffices for the
markers involved). -/
def lowerStr (s : String) : String :=
  String.mk (s.toList.map Char.toLower)

/-! ## Data model (`src/lib/database.ts`) -/

/-- A row of the `links` table / the `TrackingLink` interface. -/
structure TrackingLink where
  id : String
  «alias» : String
  original_url : String
  description : Option String
  created_at : Nat
  expires_at : Option Nat
  click_count : Nat
  is_active : Bool
deriving DecidableEq

/-- A row of the `visitors` table / the `Visitor` interface. -/
structure Visitor where
  id : String
  link_id : String
  ip_address : String
  latitude : Option ℚ
  longitude : Option ℚ
  country : Option String
  city : Option String
  device : Option String
  browser : Option String
  user_agent : Option String
  visited_at : Nat
deriving DecidableEq

/-- The persistent store: the two SQLite tables, in row-insertion order. -/
structure DB where
  links : List TrackingLink
  visitors : List Visitor
deriving DecidableEq

/-! ## Device / browser classification (`parseUserAgent`) -/

/-- The `DeviceInfo` interface. -/
structure DeviceInfo where
  device : String
  browser : String
  userAgent : String
deriving DecidableEq

/-- `parseUserAgent` from `src/lib/utils/location.ts`: lower-case the
user-agent string, then run the ordered if/else substring chains for device
class and browser. -/
def parseUserAgent (userAgent : String) : DeviceInfo :=
  let ua := lowerStr userAgent
  let device :=
    if strHasSub ua "mobile" || strHasSub ua "android" || strHasSub ua "iphone" then "Mobile"
    else if strHasSub ua "tablet" || strHasSub ua "ipad" then "Tablet"
    else "Desktop"
  let browser :=
    if strHasSub ua "chrome" && !strHasSub ua "edg" then "Chrome"
    else if strHasSub ua "firefox" then "Firefox"
    else if strHasSub ua "safari" && !strHasSub ua "chrome" then "Safari"
    else if strHasSub ua "edg" then "Edge"
    else if strHasSub ua "opera" || strHasSub ua "opr" then "Opera"
    else "Unknown"
  ⟨device, browser, userAgent⟩

/-! ## Geolocation (`getLocationFromIP`) -/

/-- The `LocationData` interface. -/
structure LocationData where
  latitude : Option ℚ
  longitude : Option ℚ
  country : Option String
  city : Option String
  ip : Option String
deriving DecidableEq

/-- Outcome of the external `fetch` to the ipapi.co endpoint, used as an
oracle: network failure / timeout / malformed (unparsable) body, a non-ok
HTTP status, or a parsed JSON body with its four optional fields. -/
inductive FetchOutcome where
  | failure
  | httpError (status : Nat)
  | success (latitude longitude : Option ℚ) (country_name city : Option String)
deriving DecidableEq

/-- The short-circuit test at the top of `getLocationFromIP`. -/
def isLocalIP (ip : String) : Bool :=
  ip == "unknown" || ip == "127.0.0.1" || ip == "::1" ||
  strStartsWith ip "192.168." || strStartsWith ip "10." || strStartsWith ip "172."

/-- The fixed local sentinel returned for loopback / private addresses. -/
def localSentinel (ip : String) : LocationData :=
  ⟨some 0, some 0, some "Local", some "Local Development", some ip⟩

/-- The sentinel returned from the catch-all error handler. -/
def unknownSentinel (ip : String) : LocationData :=
  ⟨none, none, some "Unknown", some "Unknown", some ip⟩

/-- `x || undefined` applied to a parsed JSON number field. -/
def jsOrUndefQ (x : Option ℚ) : Option ℚ :=
  if truthyQ x then x else none

/-- `x || undefined` applied to a parsed JSON string field. -/
def jsOrUndefS (x : Option String) : Option String :=
  if truthyS x then x else none

/-- `getLocationFromIP` from `src/lib/utils/location.ts`.  The returned
`Bool` records whether the external `fetch` was performed.  Any error —
network failure, a thrown non-ok status, or a malformed body — lands in the
catch handler, which returns the unknown sentinel. -/
def getLocationFromIP (oracle : FetchOutcome) (ip : String) : LocationData × Bool :=
  if isLocalIP ip then (localSentinel ip, false)
  else
    match oracle with
    | .failure => (unknownSentinel ip, true)
    | .httpError _ => (unknownSentinel ip, true)
    | .success la lo co ci =>
        (⟨jsOrUndefQ la, jsOrUndefQ lo, jsOrUndefS co, jsOrUndefS ci, some ip⟩, true)

/-! ## DatabaseManager operations -/

/-- Errors surfaced by `better-sqlite3`: a unique-constraint violation
thrown from `stmt.run`, a malformed statement rejected at `prepare` (a
SQLite syntax error), and an `undefined` bind value rejected at
`stmt.get`. -/
inductive SqlError where
  | uniqueViolation
  | invalidSql
  | undefinedBinding
deriving DecidableEq

/-- `getLinkByAlias`: `SELECT * FROM links WHERE alias = ? AND is_active = 1`. -/
def getLinkByAlias (db : DB) (a : String) : Option TrackingLink :=
  db.links.find? (fun l => l.alias == a && l.is_active)

/-- `getLinkById`: `SELECT * FROM links WHERE id = ?`. -/
def getLinkById (db : DB) (id : String) : Option TrackingLink :=
  db.links.find? (fun l => l.id == id)

/-- `createLink`: `INSERT INTO links … VALUES (?, ?, ?, ?, ?, ?, 0, 1)`.
The schema from `initializeTables` declares `id TEXT PRIMARY KEY` and
`alias TEXT UNIQUE NOT NULL`; both constraints range over **all** rows of
the table, active or not, so an insert whose alias (or id) duplicates any
existing row throws a unique-constraint `SqlError`. -/
def createLink (db : DB) (freshId a originalUrl : String) (description : Option String)
    (expiresAt : Option Nat) (now : Nat) : Except SqlError (DB × TrackingLink) :=
  if db.links.any (fun l => l.alias == a) || db.links.any (fun l => l.id == freshId) then
    .error .uniqueViolation
  else
    let link : TrackingLink :=
      ⟨freshId, a, originalUrl, description, now, expiresAt, 0, true⟩
    .ok ({ db with links := db.links ++ [link] }, link)

/-- `incrementClickCount`:
`UPDATE links SET click_count = click_count + 1 WHERE id = ?`. -/
def incrementClickCount (db : DB) (linkId : String) : DB :=
  { db with
    links := db.links.map fun l =>
      if l.id == linkId then { l with click_count := l.click_count + 1 } else l }

/-- `deleteLink`: `UPDATE links SET is_active = 0 WHERE id = ?` (soft delete). -/
def deleteLink (db : DB) (id : String) : DB :=
  { db with
    links := db.links.map fun l =>
      if l.id == id then { l with is_active := false } else l }

/-- `cleanupExpiredLinks`:
`UPDATE links SET is_active = 0 WHERE expires_at < ? AND expires_at IS NOT NULL`. -/
def cleanupExpiredLinks (db : DB) (now : Nat) : DB :=
  { db with
    links := db.links.map fun l =>
      match l.expires_at with
      | some e => if e < now then { l with is_active := false } else l
      | none => l }

/-- The data passed to `recordVisitor` (its `visitorData` parameter). -/
structure VisitorData where
  ip_address : String
  latitude : Option ℚ
  longitude : Option ℚ
  country : Option String
  city : Option String
  device : Option String
  browser : Option String
  user_agent : Option String
deriving DecidableEq

/-- The row actually inserted by `recordVisitor`'s `stmt.run`: every
optional argument is passed as `value || null`, the ip and timestamp raw. -/
def storedRow (freshId linkId : String) (d : VisitorData) (now : Nat) : Visitor :=
  { id := freshId, link_id := linkId, ip_address := d.ip_address,
    latitude := nullifyQ d.latitude, longitude := nullifyQ d.longitude,
    country := nullifyS d.country, city := nullifyS d.city,
    device := nullifyS d.device, browser := nullifyS d.browser,
    user_agent := nullifyS d.user_agent, visited_at := now }

/-- `recordVisitor`: inserts the row and returns the in-memory object
`{ id, link_id, visited_at, ...visitorData }` (which, unlike the row, keeps
falsy field values). -/
def recordVisitor (db : DB) (freshId linkId : String) (d : VisitorData) (now : Nat) :
    DB × Visitor :=
  ({ db with visitors := db.visitors ++ [storedRow freshId linkId d now] },
   { id := freshId, link_id := linkId, ip_address := d.ip_address,
     latitude := d.latitude, longitude := d.longitude,
     country := d.country, city := d.city,
     device := d.device, browser := d.browser,
     user_agent := d.user_agent, visited_at := now })

/-! ## Click statistics (`getClickStats`) -/

/-- The result shape `getClickStats` declares, trimmed to the fields the
analytics route reads for the modelled payload (`countries` is read only
for aggregations outside this model). -/
structure ClickStats where
  totalClicks : Nat
  uniqueVisitors : Nat
  recentVisits : List Visitor
deriving DecidableEq

/-- `getClickStats`.  The method never returns: `better-sqlite3` prepares
statements eagerly and executes them in source order, and
* without a `linkId` filter, `this.db.prepare(clicksQuery).get(linkId)`
  binds `undefined` to a statement with no parameter, which the driver
  rejects before any later statement is reached;
* with a `linkId`, the clicks count is read successfully, but
  `this.db.prepare(uniqueQuery)` then rejects
  `SELECT COUNT(DISTINCT ip_address) as unique …` — `unique` is a
  reserved word in SQLite, so preparation throws — before
  `countriesQuery` or `recentQuery` is prepared.
Either way the call throws, so `recentVisits` and `totalClicks` never
reach a caller. -/
def getClickStats (_db : DB) (linkId : Option String) : Except SqlError ClickStats :=
  match linkId with
  | none => .error .undefinedBinding
  | some _ => .error .invalidSql

/-! ## Route: `POST /api/links` (link creation)

The model covers a request that has already passed the zod schema
(`createLinkSchema`); validation failures do not reach the code below. -/

/-- Outcome of the create-link route: 400 "Alias already exists", 500
"Internal server error" (any throw from `createLink`, in particular the
schema's unique-constraint violation, lands in the generic catch), or 201
with the created link. -/
inductive CreateResult where
  | aliasConflict
  | internalError
  | created (link : TrackingLink)
deriving DecidableEq

/-- The `POST` handler of `src/app/api/links/route.ts`: check
`getLinkByAlias` (active rows only), then `createLink`. -/
def linksPOST (db : DB) (freshId a originalUrl : String) (description : Option String)
    (expiresAt : Option Nat) (now : Nat) : DB × CreateResult :=
  match getLinkByAlias db a with
  | some _ => (db, .aliasConflict)
  | none =>
    match createLink db freshId a originalUrl description expiresAt now with
    | .error _ => (db, .internalError)
    | .ok (db', link) => (db', .created link)

/-! ## Route: `POST /api/track` (visit-tracking pipeline) -/

/-- The zod-validated request body (`trackVisitorSchema`).  `gpsEnabled` is
never read by the handler and is omitted. -/
structure TrackInput where
  linkId : String
  latitude : Option ℚ
  longitude : Option ℚ
  accuracy : Option ℚ
deriving DecidableEq

/-- Per-request ambient data: client IP (from headers), user-agent header
(`|| ''`), the current instant, and the UUID the handler will assign. -/
structure TrackCtx where
  ip : String
  userAgent : String
  now : Nat
  freshId : String
deriving DecidableEq

/-- Outcome of the track route: 404 "Link not found or inactive",
410 "Link has expired", or 200 with the recorded visitor. -/
inductive TrackResult where
  | notFound
  | expired
  | success (visitor : Visitor)
deriving DecidableEq

/-- Whether a `TrackResult` is the success outcome. -/
def TrackResult.isSuccess : TrackResult → Bool
  | .success _ => true
  | _ => false

/-- `link.expires_at && new Date(link.expires_at) < new Date()`. -/
def isExpired (link : TrackingLink) (now : Nat) : Bool :=
  match link.expires_at with
  | some e => decide (e < now)
  | none => false

/-- The condition guarding the IP-location branch:
`!validatedData.latitude || !validatedData.longitude ||
 (validatedData.accuracy && validatedData.accuracy > 1000)`. -/
def useIPLocation (inp : TrackInput) : Bool :=
  !truthyQ inp.latitude || !truthyQ inp.longitude ||
    (truthyQ inp.accuracy &&
      match inp.accuracy with
      | some a => decide (1000 < a)
      | none => false)

/-- The `locationData` object assembled by the handler. -/
structure LocPick where
  latitude : Option ℚ
  longitude : Option ℚ
  country : Option String
  city : Option String
deriving DecidableEq

/-- Location determination (handler lines 44–60): keep device coordinates
with no country/city, unless the IP branch is taken, in which case each
coordinate is `device || resolver` and country/city come from the
resolver. -/
def pickLocation (inp : TrackInput) (ctx : TrackCtx) (oracle : FetchOutcome) : LocPick :=
  if useIPLocation inp then
    let ipLocation := (getLocationFromIP oracle ctx.ip).1
    ⟨jsOrQ inp.latitude ipLocation.latitude, jsOrQ inp.longitude ipLocation.longitude,
     ipLocation.country, ipLocation.city⟩
  else
    ⟨inp.latitude, inp.longitude, none, none⟩

/-- The `visitorData` argument the handler passes to `recordVisitor`. -/
def trackVisitData (inp : TrackInput) (ctx : TrackCtx) (oracle : FetchOutcome) : VisitorData :=
  let deviceInfo := parseUserAgent ctx.userAgent
  let loc := pickLocation inp ctx oracle
  ⟨ctx.ip, loc.latitude, loc.longitude, loc.country, loc.city,
   some deviceInfo.device, some deviceInfo.browser, some ctx.userAgent⟩

/-- The `POST` handler of `src/app/api/track/route.ts`.  The extra `Bool`
records whether the IP branch ran, i.e. whether `getLocationFromIP` was
invoked. -/
def trackPOST (db : DB) (inp : TrackInput) (ctx : TrackCtx) (oracle : FetchOutcome) :
    (DB × TrackResult) × Bool :=
  match getLinkById db inp.linkId with
  | none => ((db, .notFound), false)
  | some link =>
    if !link.is_active then ((db, .notFound), false)
    else if isExpired link ctx.now then ((db, .expired), false)
    else
      let (db1, visitor) := recordVisitor db ctx.freshId inp.linkId (trackVisitData inp ctx oracle) ctx.now
      ((incrementClickCount db1 inp.linkId, .success visitor), useIPLocation inp)

/-! ## Route: `GET /api/analytics` (aggregation) -/

/-- A JavaScript number as it occurs in the analytics average: a finite
value, `NaN`, or a signed infinity. -/
inductive JSNum where
  | num (q : ℚ)
  | nan
  | posInf
  | negInf
deriving DecidableEq

/-- JavaScript division `a / b` (on finite operands). -/
def jsDiv (a b : ℚ) : JSNum :=
  if b = 0 then (if a = 0 then .nan else if 0 < a then .posInf else .negInf)
  else .num (a / b)

/-- JavaScript `Math.round`: round half toward positive infinity on finite
values, identity on `NaN` and the infinities. -/
def jsRound : JSNum → JSNum
  | .num q => .num ((⌊q + (1 : ℚ) / 2⌋ : ℤ) : ℚ)
  | e => e

/-- The analytics response, trimmed to the payload fields the claims
concern: the overview's `avgClicksPerDay` and `recentActivity` (the other
aggregations are computed between these two in the source and are
likewise unreachable). -/
inductive AnalyticsResult where
  | internalError
  | ok (avgClicksPerDay : JSNum) (recentActivity : List Visitor)
deriving DecidableEq

/-- The `GET` handler of `src/app/api/analytics/route.ts`.  It calls
`getClickStats` before any other query; any throw lands in the catch-all,
which answers 500 Internal error.  The `ok` branch transcribes
`avgClicksPerDay: Math.round(stats.totalClicks / days)` (with `days` =
`parseInt(searchParams.get('days') || '30')`, unchecked) and
`recentActivity: stats.recentVisits.slice(0, 20)`; it is unreachable
because `getClickStats` always throws. -/
def analyticsGET (db : DB) (linkId : Option String) (days : ℤ) : AnalyticsResult :=
  match getClickStats db linkId with
  | .error _ => .internalError
  | .ok stats =>
      .ok (jsRound (jsDiv ((stats.totalClicks : ℚ)) ((days : ℚ))))
        (stats.recentVisits.take 20)

/-! ## Spec-side definitions and fixtures -/

/-- Whether a `FetchOutcome` is one of the error outcomes (network failure /
timeout / malformed body, or a non-ok HTTP status). -/
def FetchOutcome.isError : FetchOutcome → Bool
  | .failure => true
  | .httpError _ => true
  | .success _ _ _ _ => false

/-- Spec-modelled rule table for browser classification (§4.4 of the spec):
an ordered list of (predicate, result) pairs.  This is the spec's reading,
to be compared against `parseUserAgent` from the source. -/
def browserSpecRules : List ((String → Bool) × String) :=
  [⟨fun ua => strHasSub ua "chrome" && !strHasSub ua "edg", "Chrome"⟩,
   ⟨fun ua => strHasSub ua "firefox", "Firefox"⟩,
   ⟨fun ua => strHasSub ua "safari" && !strHasSub ua "chrome", "Safari"⟩,
   ⟨fun ua => strHasSub ua "edg", "Edge"⟩,
   ⟨fun ua => strHasSub ua "opera" || strHasSub ua "opr", "Opera"⟩]

/-- Spec-modelled first-match-wins evaluation of an ordered rule table,
defaulting to "Unknown". -/
def firstMatchWins : List ((String → Bool) × String) → String → String
  | [], _ => "Unknown"
  | (p, r) :: rest, ua => if p ua then r else firstMatchWins rest ua

/-- Fixture: a deactivated link holding the alias "promo". -/
def promoInactive : TrackingLink :=
  ⟨"L1", "promo", "https://example.com/landing", none, 0, none, 3, false⟩

/-- Fixture: a store whose only "promo" link has been deactivated. -/
def dbAliasReuse : DB := ⟨[promoInactive], []⟩

/-- Fixture: the i-th of a family of visits with increasing timestamps. -/
def mkVisit (i : Nat) : Visitor :=
  ⟨"v", "L1", "1.2.3.4", none, none, none, none, some "Desktop", some "Chrome", some "ua", i⟩

/-- Fixture: eleven visits with timestamps 0..10. -/
def elevenVisits : List Visitor := (List.range 11).map mkVisit

/-- Fixture: a store holding eleven visits. -/
def dbEleven : DB := ⟨[], elevenVisits⟩

/-- Fixture: a deactivated link with id "L1". -/
def linkInactive : TrackingLink :=
  ⟨"L1", "promo", "https://example.com", none, 0, none, 0, false⟩

/-- Fixture: a store whose only link is deactivated. -/
def dbInactive : DB := ⟨[linkInactive], []⟩

/-- Fixture: an active, unexpired link with id "L1". -/
def linkActive : TrackingLink :=
  ⟨"L1", "promo", "https://example.com", none, 0, none, 0, true⟩

/-- Fixture: a store whose only link is active. -/
def dbActive : DB := ⟨[linkActive], []⟩

/-- Fixture: request context from a public IP. -/
def ctx0 : TrackCtx := ⟨"5.6.7.8", "Mozilla/5.0 Chrome/120 Safari/537", 7, "V9"⟩

/-- Fixture: a track request supplying an accurate device fix on the
equator (latitude 0, longitude 10, accuracy 50). -/
def zeroLatInput : TrackInput := ⟨"L1", some 0, some 10, some 50⟩

/-- Fixture: an external lookup that succeeds with Paris coordinates. -/
def parisOracle : FetchOutcome :=
  .success (some 48) (some 2) (some "France") (some "Paris")

/-- Fixture: a track request supplying an accurate nonzero device fix
(latitude 40, longitude -74, accuracy 50). -/
def devInput : TrackInput := ⟨"L1", some 40, some (-74), some 50⟩

/-- Fixture: a track request supplying no device coordinates. -/
def noGpsInput : TrackInput := ⟨"L1", none, none, none⟩

/-! ## Theorems -/

/-- C8: browser classification is decided by the ordered first-match-wins
substring rules Chrome∧¬Edge → Chrome; Firefox → Firefox; Safari∧¬Chrome →
Safari; Edge → Edge; Opera → Opera; otherwise Unknown — and in particular a
user-agent carrying both the "edg" and "chrome" markers (as genuine Edge
user-agents do, without a Firefox marker) classifies as "Edge". -/
theorem browser_first_match_wins :
    (∀ ua : String,
      (parseUserAgent ua).browser = firstMatchWins browserSpecRules (lowerStr ua)) ∧
    (parseUserAgent "Mozilla/5.0 AppleWebKit Chrome/120.0 Safari/537.36 Edg/120.0").browser
      = "Edge" := by
  constructor
  · intro ua
    rfl
  · decide

/-- C7: every loopback or private-network address (127.0.0.1, ::1,
192.168.x.x, 10.x.x.x, 172.x.x.x) short-circuits `getLocationFromIP` to
the fixed local sentinel — zero coordinates and the sentinel country/city —
with no external call, whatever the external lookup would have returned. -/
theorem private_ip_short_circuit (ip : String) (oracle : FetchOutcome)
    (h : ip = "127.0.0.1" ∨ ip = "::1" ∨ strStartsWith ip "192.168." = true ∨
         strStartsWith ip "10." = true ∨ strStartsWith ip "172." = true) :
    getLocationFromIP oracle ip =
      (⟨some 0, some 0, some "Local", some "Local Development", some ip⟩, false) := by
  have hl : isLocalIP ip = true := by
    rcases h with h | h | h | h | h <;> simp [isLocalIP, h]
  simp [getLocationFromIP, hl, localSentinel]

/-- Witness for C7 at the concrete private address 192.168.1.5. -/
theorem private_ip_short_circuit_witness :
    strStartsWith "192.168.1.5" "192.168." = true ∧
    getLocationFromIP parisOracle "192.168.1.5" =
      (⟨some 0, some 0, some "Local", some "Local Development", some "192.168.1.5"⟩, false) :=
  ⟨by decide,
   private_ip_short_circuit "192.168.1.5" parisOracle
     (Or.inr (Or.inr (Or.inl (by decide))))⟩

/-- C6: `getLocationFromIP` never propagates a lookup failure: on any
external error (network failure/timeout, non-ok status, malformed body) it
returns a sentinel — the unknown sentinel whenever the lookup was actually
attempted, the local sentinel when the address short-circuits — and never
throws (it is a total function into `LocationData`). -/
theorem lookup_error_returns_unknown (ip : String) (oracle : FetchOutcome)
    (h : oracle.isError = true) :
    getLocationFromIP oracle ip =
      if isLocalIP ip then (localSentinel ip, false) else (unknownSentinel ip, true) := by
  cases oracle <;> simp_all [getLocationFromIP, FetchOutcome.isError]

/-- Witness for C6 at the public address 8.8.8.8 with a failed lookup. -/
theorem lookup_error_returns_unknown_witness :
    FetchOutcome.isError .failure = true ∧
    getLocationFromIP .failure "8.8.8.8" = (unknownSentinel "8.8.8.8", true) :=
  ⟨by decide, by
    have h := lookup_error_returns_unknown "8.8.8.8" .failure (by decide)
    simpa using h⟩

/-- C1 (code bug): with the only "promo" link deactivated, no currently
active link holds the alias, yet re-creating the alias does **not**
succeed: the `alias TEXT UNIQUE` schema constraint ranges over inactive
rows too, so `createLink`'s INSERT throws and the route answers 500
Internal error, leaving the store unchanged. -/
theorem alias_reuse_after_deactivation_fails :
    getLinkByAlias dbAliasReuse "promo" = none ∧
    linksPOST dbAliasReuse "L2" "promo" "https://example.com/other" none none 10 =
      (dbAliasReuse, CreateResult.internalError) := by decide

/-- C2 (code bug): the analytics route never returns an average at all:
`getClickStats` throws on every call — the driver rejects the `undefined`
binding when no link filter is supplied, and rejects the malformed
`as unique` aliasing at prepare otherwise — so for every store, link
filter and requested window the route answers 500 Internal error, and in
particular never computes the claimed guarded average. -/
theorem avg_never_computed :
    getClickStats (⟨[], []⟩ : DB) none = .error .undefinedBinding ∧
    getClickStats dbActive (some "L1") = .error .invalidSql ∧
    ∀ (db : DB) (linkId : Option String) (days : ℤ),
      analyticsGET db linkId days = AnalyticsResult.internalError := by
  refine ⟨rfl, rfl, ?_⟩
  intro db linkId days
  cases linkId <;> simp [analyticsGET, getClickStats]

/-- C5 (code bug): the recent-activity list is never produced:
`getClickStats` throws at `prepare(uniqueQuery)` before `recentQuery` is
prepared, so even with eleven stored visits the analytics route answers
500 Internal error — with or without a link filter — instead of any
capped recent-visit list. -/
theorem recent_activity_never_produced :
    dbEleven.visitors.length = 11 ∧
    analyticsGET dbEleven none 30 = AnalyticsResult.internalError ∧
    analyticsGET dbEleven (some "L1") 30 = AnalyticsResult.internalError := by decide

/-- A successful track outcome implies that the link was found, active and
unexpired. -/
theorem track_success_branch (db : DB) (inp : TrackInput) (ctx : TrackCtx)
    (oracle : FetchOutcome)
    (h : ((trackPOST db inp ctx oracle).1.2).isSuccess = true) :
    ∃ link, getLinkById db inp.linkId = some link ∧ link.is_active = true ∧
      isExpired link ctx.now = false := by
  rcases hL : getLinkById db inp.linkId with _ | link
  · simp [trackPOST, hL, TrackResult.isSuccess] at h
  · by_cases hA : link.is_active = true
    · by_cases hE : isExpired link ctx.now = true
      · simp [trackPOST, hL, hA, hE, TrackResult.isSuccess] at h
      · exact ⟨link, rfl, hA, by simpa using hE⟩
    · simp [trackPOST, hL, Bool.of_not_eq_true hA, TrackResult.isSuccess] at h

/-- On the success path, `trackPOST` inserts the stored row, increments
the counter, and reports whether the IP branch ran. -/
theorem trackPOST_state_eq (db : DB) (inp : TrackInput) (ctx : TrackCtx)
    (oracle : FetchOutcome) (link : TrackingLink)
    (hL : getLinkById db inp.linkId = some link) (hA : link.is_active = true)
    (hE : isExpired link ctx.now = false) :
    (trackPOST db inp ctx oracle).1.1 =
      incrementClickCount
        { db with
          visitors := db.visitors ++
            [storedRow ctx.freshId inp.linkId (trackVisitData inp ctx oracle) ctx.now] }
        inp.linkId ∧
    (trackPOST db inp ctx oracle).2 = useIPLocation inp := by
  simp [trackPOST, hL, hA, hE, recordVisitor]

/-- C3: a track-visit request against an absent, deactivated or expired
link fails — `notFound` when the link is absent or its active flag is
false, `expired` when it is active but past its expiration instant — and
the store is unchanged: no visit row is inserted and no click counter
moves. -/
theorem track_visit_rejected (db : DB) (inp : TrackInput) (ctx : TrackCtx)
    (oracle : FetchOutcome)
    (h : getLinkById db inp.linkId = none ∨
         ∃ link, getLinkById db inp.linkId = some link ∧
           (link.is_active = false ∨ isExpired link ctx.now = true)) :
    (trackPOST db inp ctx oracle).1.1 = db ∧
    ((trackPOST db inp ctx oracle).1.2 = TrackResult.notFound ∨
      (trackPOST db inp ctx oracle).1.2 = TrackResult.expired) ∧
    (getLinkById db inp.linkId = none →
      (trackPOST db inp ctx oracle).1.2 = TrackResult.notFound) ∧
    (∀ link, getLinkById db inp.linkId = some link → link.is_active = false →
      (trackPOST db inp ctx oracle).1.2 = TrackResult.notFound) ∧
    (∀ link, getLinkById db inp.linkId = some link → link.is_active = true →
      isExpired link ctx.now = true →
      (trackPOST db inp ctx oracle).1.2 = TrackResult.expired) := by
  rcases h with hnone | ⟨link, hsome, hbad⟩
  · refine ⟨?_, ?_, ?_, ?_, ?_⟩ <;> simp [trackPOST, hnone]
  · rcases hbad with hina | hexp
    · refine ⟨?_, ?_, ?_, ?_, ?_⟩ <;> simp [trackPOST, hsome, hina]
    · by_cases hact : link.is_active = true
      · refine ⟨?_, ?_, ?_, ?_, ?_⟩ <;> simp [trackPOST, hsome, hact, hexp]
      · have hina : link.is_active = false := Bool.of_not_eq_true hact
        refine ⟨?_, ?_, ?_, ?_, ?_⟩ <;> simp [trackPOST, hsome, hina]

/-- Witness for C3 at a deactivated link. -/
theorem track_visit_rejected_witness :
    (trackPOST dbInactive noGpsInput ctx0 FetchOutcome.failure).1.1 = dbInactive ∧
    (trackPOST dbInactive noGpsInput ctx0 FetchOutcome.failure).1.2 =
      TrackResult.notFound := by
  have H := track_visit_rejected dbInactive noGpsInput ctx0 FetchOutcome.failure
    (Or.inr ⟨linkInactive, by decide, Or.inl rfl⟩)
  exact ⟨H.1, H.2.2.2.1 linkInactive (by decide) rfl⟩

/-- C9 (frame): a successful track-visit mutates the store exactly by
appending one visit row and bumping the click counter of the tracked link;
every other field of every link — alias, target URL, description,
timestamps, active flag — and every other link and visit are unchanged. -/
theorem track_success_frame (db : DB) (inp : TrackInput) (ctx : TrackCtx)
    (oracle : FetchOutcome)
    (h : ((trackPOST db inp ctx oracle).1.2).isSuccess = true) :
    (trackPOST db inp ctx oracle).1.1.visitors =
      db.visitors ++
        [storedRow ctx.freshId inp.linkId (trackVisitData inp ctx oracle) ctx.now] ∧
    (trackPOST db inp ctx oracle).1.1.links =
      db.links.map (fun l =>
        if l.id = inp.linkId then { l with click_count := l.click_count + 1 } else l) ∧
    (∀ l ∈ db.links, l.id ≠ inp.linkId → l ∈ (trackPOST db inp ctx oracle).1.1.links) ∧
    (∀ l ∈ db.links, l.id = inp.linkId →
      { l with click_count := l.click_count + 1 } ∈ (trackPOST db inp ctx oracle).1.1.links) := by
  obtain ⟨link, hL, hA, hE⟩ := track_success_branch db inp ctx oracle h
  have hstate := (trackPOST_state_eq db inp ctx oracle link hL hA hE).1
  have hmap : (trackPOST db inp ctx oracle).1.1.links =
      db.links.map (fun l =>
        if l.id = inp.linkId then { l with click_count := l.click_count + 1 } else l) := by
    rw [hstate]
    simp only [incrementClickCount]
    exact List.map_congr_left fun a _ => by by_cases hid : a.id = inp.linkId <;> simp [hid]
  refine ⟨?_, hmap, ?_, ?_⟩
  · rw [hstate]
    simp [incrementClickCount]
  · intro l hl hne
    rw [hmap]
    exact List.mem_map.mpr ⟨l, hl, by simp [hne]⟩
  · intro l hl hid
    rw [hmap]
    exact List.mem_map.mpr ⟨l, hl, by simp [hid]⟩

/-- Witness for C9: a successful visit against the active fixture link. -/
theorem track_success_frame_witness :
    (trackPOST dbActive noGpsInput ctx0 FetchOutcome.failure).1.1.visitors =
      dbActive.visitors ++
        [storedRow ctx0.freshId noGpsInput.linkId
          (trackVisitData noGpsInput ctx0 FetchOutcome.failure) ctx0.now] ∧
    (trackPOST dbActive noGpsInput ctx0 FetchOutcome.failure).1.1.links =
      dbActive.links.map (fun l =>
        if l.id = noGpsInput.linkId then { l with click_count := l.click_count + 1 } else l) := by
  have H := track_success_frame dbActive noGpsInput ctx0 FetchOutcome.failure (by decide)
  exact ⟨H.1, H.2.1⟩

/-- The device-location branch is taken exactly when both coordinates are
(truthily) present and any supplied accuracy is at or below 1000. -/
theorem useIPLocation_false_iff (inp : TrackInput) :
    useIPLocation inp = false ↔
      (truthyQ inp.latitude = true ∧ truthyQ inp.longitude = true ∧
        ∀ a : ℚ, inp.accuracy = some a → a ≤ 1000) := by
  rcases inp with ⟨li, la, lo, acc⟩
  cases acc with
  | none => simp [useIPLocation]
  | some a =>
    simp only [useIPLocation, truthyQ, Bool.or_eq_false_iff, Bool.and_eq_false_iff,
      Bool.not_eq_false', decide_eq_false_iff_not, not_not, not_lt,
      Option.some.injEq]
    constructor
    · rintro ⟨⟨h1, h2⟩, h3⟩
      refine ⟨h1, h2, ?_⟩
      rintro b rfl
      rcases h3 with h0 | hle
      · rw [h0]; norm_num
      · exact hle
    · rintro ⟨h1, h2, h3⟩
      refine ⟨⟨h1, h2⟩, ?_⟩
      by_cases h0 : a = 0
      · exact Or.inl h0
      · exact Or.inr (h3 a rfl)

/-- C4 counterexample: a request supplying device coordinates latitude 0,
longitude 10 and accuracy 50 (at or below 1000) does **not** persist those
coordinates with no country/city: JavaScript truthiness treats the zero
latitude as absent, so the IP resolver runs and the persisted visit holds
the resolver's latitude 48 and country France. -/
theorem device_coords_zero_lat_counterexample :
    zeroLatInput.latitude = some 0 ∧ zeroLatInput.longitude = some 10 ∧
    zeroLatInput.accuracy = some 50 ∧
    ((trackPOST dbActive zeroLatInput ctx0 parisOracle).1.1.visitors.map
        (fun v => (v.latitude, v.longitude, v.country, v.city))) =
      [(some 48, some 10, some "France", some "Paris")] := by decide

/-- C4 amended: on a successful track-visit, the device-location branch is
taken exactly when both device coordinates are present and nonzero and any
supplied accuracy is at or below 1000; on that branch the persisted visit
stores exactly the device coordinates with no country/city.  On every
other request the IP resolver is invoked, each missing-or-zero device
coordinate is taken from the resolver (a zero resolver coordinate persists
as absent), present nonzero device coordinates are kept, and country/city
come from the resolver. -/
theorem track_location_pipeline (db : DB) (inp : TrackInput) (ctx : TrackCtx)
    (oracle : FetchOutcome)
    (h : ((trackPOST db inp ctx oracle).1.2).isSuccess = true) :
    (trackPOST db inp ctx oracle).1.1.visitors =
      db.visitors ++
        [storedRow ctx.freshId inp.linkId (trackVisitData inp ctx oracle) ctx.now] ∧
    (trackPOST db inp ctx oracle).2 = useIPLocation inp ∧
    (useIPLocation inp = false ↔
      (truthyQ inp.latitude = true ∧ truthyQ inp.longitude = true ∧
        ∀ a : ℚ, inp.accuracy = some a → a ≤ 1000)) ∧
    (useIPLocation inp = false →
      (storedRow ctx.freshId inp.linkId (trackVisitData inp ctx oracle) ctx.now).latitude
          = inp.latitude ∧
      (storedRow ctx.freshId inp.linkId (trackVisitData inp ctx oracle) ctx.now).longitude
          = inp.longitude ∧
      (storedRow ctx.freshId inp.linkId (trackVisitData inp ctx oracle) ctx.now).country
          = none ∧
      (storedRow ctx.freshId inp.linkId (trackVisitData inp ctx oracle) ctx.now).city
          = none) ∧
    (useIPLocation inp = true →
      (storedRow ctx.freshId inp.linkId (trackVisitData inp ctx oracle) ctx.now).latitude
          = nullifyQ (jsOrQ inp.latitude (getLocationFromIP oracle ctx.ip).1.latitude) ∧
      (storedRow ctx.freshId inp.linkId (trackVisitData inp ctx oracle) ctx.now).longitude
          = nullifyQ (jsOrQ inp.longitude (getLocationFromIP oracle ctx.ip).1.longitude) ∧
      (storedRow ctx.freshId inp.linkId (trackVisitData inp ctx oracle) ctx.now).country
          = nullifyS (getLocationFromIP oracle ctx.ip).1.country ∧
      (storedRow ctx.freshId inp.linkId (trackVisitData inp ctx oracle) ctx.now).city
          = nullifyS (getLocationFromIP oracle ctx.ip).1.city) := by
  obtain ⟨link, hL, hA, hE⟩ := track_success_branch db inp ctx oracle h
  obtain ⟨hstate, hflag⟩ := trackPOST_state_eq db inp ctx oracle link hL hA hE
  refine ⟨?_, hflag, useIPLocation_false_iff inp, ?_, ?_⟩
  · rw [hstate]
    simp [incrementClickCount]
  · intro hdev
    obtain ⟨hlat, hlon, -⟩ := (useIPLocation_false_iff inp).mp hdev
    refine ⟨?_, ?_, ?_, ?_⟩ <;>
      simp [storedRow, trackVisitData, pickLocation, hdev, nullifyQ, nullifyS, hlat, hlon]
  · intro hip
    refine ⟨?_, ?_, ?_, ?_⟩ <;>
      simp [storedRow, trackVisitData, pickLocation, hip]

/-- Witness for C4 (amended): an accurate nonzero device fix is persisted
verbatim with no country/city. -/
theorem track_location_pipeline_witness :
    useIPLocation devInput = false ∧
    (storedRow ctx0.freshId devInput.linkId
        (trackVisitData devInput ctx0 FetchOutcome.failure) ctx0.now).latitude
      = some 40 ∧
    (storedRow ctx0.freshId devInput.linkId
        (trackVisitData devInput ctx0 FetchOutcome.failure) ctx0.now).country
      = none := by
  have H := track_location_pipeline dbActive devInput ctx0 FetchOutcome.failure (by decide)
  have hdev := H.2.2.2.1 (by decide)
  exact ⟨by decide, hdev.1, hdev.2.2.1⟩

/-- C10: a track-visit request whose device latitude or longitude equals 0
is treated as if that coordinate were absent: the IP resolver is invoked
and the zero coordinate is replaced by the resolver's value (persisted as
absent when the resolver yields nothing or zero). -/
theorem zero_coordinate_treated_absent (db : DB) (inp : TrackInput) (ctx : TrackCtx)
    (oracle : FetchOutcome)
    (h0 : inp.latitude = some 0 ∨ inp.longitude = some 0)
    (h : ((trackPOST db inp ctx oracle).1.2).isSuccess = true) :
    useIPLocation inp = true ∧
    (trackPOST db inp ctx oracle).2 = true ∧
    (inp.latitude = some 0 →
      (storedRow ctx.freshId inp.linkId (trackVisitData inp ctx oracle) ctx.now).latitude
        = nullifyQ (getLocationFromIP oracle ctx.ip).1.latitude) ∧
    (inp.longitude = some 0 →
      (storedRow ctx.freshId inp.linkId (trackVisitData inp ctx oracle) ctx.now).longitude
        = nullifyQ (getLocationFromIP oracle ctx.ip).1.longitude) := by
  have huse : useIPLocation inp = true := by
    rcases h0 with h0 | h0 <;> simp [useIPLocation, h0, truthyQ]
  obtain ⟨link, hL, hA, hE⟩ := track_success_branch db inp ctx oracle h
  obtain ⟨-, hflag⟩ := trackPOST_state_eq db inp ctx oracle link hL hA hE
  refine ⟨huse, by rw [hflag, huse], ?_, ?_⟩
  · intro hlat
    simp [storedRow, trackVisitData, pickLocation, huse, hlat, jsOrQ, truthyQ]
  · intro hlon
    simp [storedRow, trackVisitData, pickLocation, huse, hlon, jsOrQ, truthyQ]

/-- Witness for C10: a zero device latitude with an accurate fix is
replaced by the resolver's latitude 48. -/
theorem zero_coordinate_treated_absent_witness :
    zeroLatInput.latitude = some 0 ∧
    useIPLocation zeroLatInput = true ∧
    (storedRow ctx0.freshId zeroLatInput.linkId
        (trackVisitData zeroLatInput ctx0 parisOracle) ctx0.now).latitude
      = some 48 := by
  have H := zero_coordinate_treated_absent dbActive zeroLatInput ctx0 parisOracle
    (Or.inl rfl) (by decide)
  refine ⟨rfl, H.1, ?_⟩
  have h3 := H.2.2.1 rfl
  rw [h3]
  decide

end TrackLink
